import Mathlib

/-!
Verification of the image preprocessing and postprocessing pipeline of the
"Segment Anything in KerasHub" notebook
(src/guides/ipynb/keras_hub/segment_anything_in_keras_hub.ipynb).

The notebook's only algorithmic code is `inference_resizing` (cell-7), the
mask thresholding steps (cell-17, cell-20) and the request-assembly cells
that feed prompts to the external SAM model (cell-15, cell-23, cell-25).
Pixel arithmetic is embedded over exact rationals; an image is a pixel grid
of fixed channel count 3 together with its height, width and dtype.
-/

/-- Tensor element dtype, as far as the notebook distinguishes it:
8-bit integer input images versus the float32 the pipeline casts to. -/
inductive DType where
  | u8 : DType
  | f32 : DType
deriving DecidableEq

/-- An image: height x width x 3 pixel grid.  The pixel map is total over
all coordinates; only coordinates below `height`/`width` are meaningful. -/
structure Img where
  height : ℕ
  width : ℕ
  pix : ℕ → ℕ → Fin 3 → ℚ
  dtype : DType

/-- `ops.cast(image, dtype="float32")` of cell-7: retains the pixel values
(exact rationals here), changes only the dtype. -/
def castF32 (img : Img) : Img :=
  { img with dtype := DType.f32 }

/-- Python `int(q)`: truncation toward zero. -/
def pyInt (q : ℚ) : ℤ :=
  if 0 ≤ q then ⌊q⌋ else -⌊-q⌋

/-- `scale = 1024 * 1.0 / max(old_h, old_w)` from cell-7. -/
def imgScale (h w : ℕ) : ℚ :=
  1024 / ((max h w : ℕ) : ℚ)

/-- `preprocess_shape = int(new_h + 0.5), int(new_w + 0.5)` from cell-7,
where `new_h = old_h * scale` and `new_w = old_w * scale`. -/
def preprocessShape (h w : ℕ) : ℕ × ℕ :=
  ((pyInt ((h : ℚ) * imgScale h w + 1/2)).toNat,
   (pyInt ((w : ℚ) * imgScale h w + 1/2)).toNat)

/-- Source coordinate of output index `i` under half-pixel-centre sampling,
the coordinate map of `ops.image.resize`. -/
def srcCoord (srcN dstN : ℕ) (i : ℕ) : ℚ :=
  ((i : ℚ) + 1/2) * (srcN : ℚ) / (dstN : ℚ) - 1/2

/-- Clamp an integer sample index into `[0, n-1]`. -/
def clampIdx (n : ℕ) (z : ℤ) : ℕ :=
  min z.toNat (n - 1)

/-- `ops.image.resize(image, preprocess_shape)` of cell-7: bilinear
resampling with half-pixel centres and edge clamping. -/
def resizeBilinear (img : Img) (H W : ℕ) : Img :=
  { height := H
    width := W
    dtype := img.dtype
    pix := fun i j c =>
      let y := srcCoord img.height H i
      let x := srcCoord img.width W j
      let y0 := clampIdx img.height ⌊y⌋
      let y1 := clampIdx img.height (⌊y⌋ + 1)
      let x0 := clampIdx img.width ⌊x⌋
      let x1 := clampIdx img.width (⌊x⌋ + 1)
      let dy := y - (⌊y⌋ : ℚ)
      let dx := x - (⌊x⌋ : ℚ)
      (1 - dy) * (1 - dx) * img.pix y0 x0 c
        + (1 - dy) * dx * img.pix y0 x1 c
        + dy * (1 - dx) * img.pix y1 x0 c
        + dy * dx * img.pix y1 x1 c }

/-- The fixed per-channel mean `[123.675, 116.28, 103.53]` of cell-7. -/
def pixelMean : Fin 3 → ℚ := ![123.675, 116.28, 103.53]

/-- The fixed per-channel std `[58.395, 57.12, 57.375]` of cell-7. -/
def pixelStd : Fin 3 → ℚ := ![58.395, 57.12, 57.375]

/-- `image = (image - pixel_mean) / pixel_std` of cell-7. -/
def normalizeImg (img : Img) : Img :=
  { img with pix := fun i j c => (img.pix i j c - pixelMean c) / pixelStd c }

/-- `image = image * pixel_std + pixel_mean` of cell-7. -/
def denormalizeImg (img : Img) : Img :=
  { img with pix := fun i j c => img.pix i j c * pixelStd c + pixelMean c }

/-- `ops.pad(image, [(0, pad_h), (0, pad_w), (0, 0)])` of cell-7:
zero-pad on the bottom and right edges only. -/
def padImage (img : Img) (ph pw : ℕ) : Img :=
  { height := img.height + ph
    width := img.width + pw
    dtype := img.dtype
    pix := fun i j c =>
      if i < img.height ∧ j < img.width then img.pix i j c else 0 }

/-- `inference_resizing(image, pad)` of cell-7: cast to float32, compute the
preprocess shape from `scale = 1024 / max(h, w)`, resize; when `pad` is set,
normalize, zero-pad bottom/right to 1024 x 1024, then denormalize. -/
def inference_resizing (img0 : Img) (pad : Bool) : Img :=
  let image := castF32 img0
  let ps := preprocessShape image.height image.width
  let resized := resizeBilinear image ps.1 ps.2
  if pad then
    let normed := normalizeImg resized
    let padded := padImage normed (1024 - resized.height) (1024 - resized.width)
    denormalizeImg padded
  else resized

/-! ### Shape lemmas for `preprocessShape` -/

lemma pyInt_of_nonneg {q : ℚ} (h : 0 ≤ q) : pyInt q = ⌊q⌋ := by
  simp [pyInt, h]

lemma imgScale_nonneg (h w : ℕ) : 0 ≤ imgScale h w := by
  unfold imgScale
  positivity

/-- The side that attains the max resizes to exactly 1024. -/
lemma preShape_max_side (n : ℕ) (hn : 0 < n) :
    (pyInt ((n : ℚ) * (1024 / (n : ℚ)) + 1/2)).toNat = 1024 := by
  have hn' : (n : ℚ) ≠ 0 := by exact_mod_cast hn.ne'
  have hval : (n : ℚ) * (1024 / (n : ℚ)) = 1024 := by
    field_simp
  rw [hval, pyInt_of_nonneg (by norm_num)]
  have : ⌊(1024 + 1/2 : ℚ)⌋ = 1024 := by
    rw [Int.floor_eq_iff]
    constructor <;> norm_num
  rw [this]
  rfl

/-- Any side (at most the max) resizes to at most 1024. -/
lemma preShape_le_1024 (d m : ℕ) (hdm : d ≤ m) (hm : 0 < m) :
    (pyInt ((d : ℚ) * (1024 / (m : ℚ)) + 1/2)).toNat ≤ 1024 := by
  have hm' : (0 : ℚ) < (m : ℚ) := by exact_mod_cast hm
  have hq : (0 : ℚ) ≤ (d : ℚ) * (1024 / (m : ℚ)) + 1/2 := by positivity
  rw [pyInt_of_nonneg hq]
  have hle : (d : ℚ) * (1024 / (m : ℚ)) ≤ 1024 := by
    rw [mul_div_assoc'] at *
    rw [div_le_iff₀ hm']
    have : (d : ℚ) ≤ (m : ℚ) := by exact_mod_cast hdm
    nlinarith
  have hlt : (d : ℚ) * (1024 / (m : ℚ)) + 1/2 < (1025 : ℤ) := by
    push_cast
    linarith
  have : ⌊(d : ℚ) * (1024 / (m : ℚ)) + 1/2⌋ < 1025 := Int.floor_lt.mpr hlt
  omega

lemma preprocessShape_fst_le (h w : ℕ) (hw : 0 < w) :
    (preprocessShape h w).1 ≤ 1024 := by
  unfold preprocessShape imgScale
  exact preShape_le_1024 h (max h w) (le_max_left h w) (lt_of_lt_of_le hw (le_max_right h w))

lemma preprocessShape_snd_le (h w : ℕ) (hh : 0 < h) :
    (preprocessShape h w).2 ≤ 1024 := by
  unfold preprocessShape imgScale
  exact preShape_le_1024 w (max h w) (le_max_right h w) (lt_of_lt_of_le hh (le_max_left h w))

lemma preprocessShape_max (h w : ℕ) (hh : 0 < h) (hw : 0 < w) :
    max (preprocessShape h w).1 (preprocessShape h w).2 = 1024 := by
  rcases le_total h w with hcase | hcase
  · have hsnd : (preprocessShape h w).2 = 1024 := by
      unfold preprocessShape imgScale
      simp only
      rw [max_eq_right hcase]
      exact preShape_max_side w hw
    have hfst := preprocessShape_fst_le h w hw
    omega
  · have hfst : (preprocessShape h w).1 = 1024 := by
      unfold preprocessShape imgScale
      simp only
      rw [max_eq_left hcase]
      exact preShape_max_side h hh
    have hsnd := preprocessShape_snd_le h w hh
    omega

lemma inference_resizing_true_height (img : Img) (hW : 0 < img.width) :
    (inference_resizing img true).height = 1024 := by
  have h1 := preprocessShape_fst_le img.height img.width hW
  simp [inference_resizing, denormalizeImg, padImage, normalizeImg, resizeBilinear,
    castF32]
  omega

lemma inference_resizing_true_width (img : Img) (hH : 0 < img.height) :
    (inference_resizing img true).width = 1024 := by
  have h2 := preprocessShape_snd_le img.height img.width hH
  simp [inference_resizing, denormalizeImg, padImage, normalizeImg, resizeBilinear,
    castF32]
  omega

/-- C1: for every image with positive height and width, `inference_resizing`
with `pad = true` returns a 1024 x 1024 (x 3-channel, by the `Img` type)
tensor, the intermediate resized dimensions before padding satisfy
`max(resized_H, resized_W) = 1024`, and with `pad = false` the output shape
equals the computed resized dimensions with no padding applied. -/
theorem inference_resizing_shape (img : Img)
    (hH : 0 < img.height) (hW : 0 < img.width) :
    (inference_resizing img true).height = 1024 ∧
    (inference_resizing img true).width = 1024 ∧
    max (preprocessShape img.height img.width).1
      (preprocessShape img.height img.width).2 = 1024 ∧
    (inference_resizing img false).height =
      (preprocessShape img.height img.width).1 ∧
    (inference_resizing img false).width =
      (preprocessShape img.height img.width).2 := by
  refine ⟨inference_resizing_true_height img hW,
    inference_resizing_true_width img hH,
    preprocessShape_max _ _ hH hW, ?_, ?_⟩ <;>
  simp [inference_resizing, resizeBilinear, castF32]

/-- A concrete 800 x 600 constant image used to witness the theorems. -/
def testImg : Img :=
  { height := 800, width := 600, pix := fun _ _ _ => 100, dtype := DType.u8 }

/-- Witness for C1 at the concrete 800 x 600 image. -/
theorem inference_resizing_shape_witness :
    (inference_resizing testImg true).height = 1024 ∧
    (inference_resizing testImg true).width = 1024 ∧
    preprocessShape testImg.height testImg.width = (1024, 768) :=
  ⟨(inference_resizing_shape testImg (by decide) (by decide)).1,
   (inference_resizing_shape testImg (by decide) (by decide)).2.1,
   by norm_num [preprocessShape, pyInt, imgScale, testImg]; decide⟩

/-- C2: the code computes `scale = 1024 / max(H, W)` and the target
dimensions by adding 0.5 and truncating to an integer, which agrees with
round-half-up (`round`) of `H*scale` and `W*scale`. -/
theorem preprocessShape_round_half_up (h w : ℕ) (hh : 0 < h) (hw : 0 < w) :
    imgScale h w = 1024 / ((max h w : ℕ) : ℚ) ∧
    pyInt ((h : ℚ) * imgScale h w + 1/2) = ⌊(h : ℚ) * imgScale h w + 1/2⌋ ∧
    preprocessShape h w =
      ((round ((h : ℚ) * imgScale h w)).toNat,
       (round ((w : ℚ) * imgScale h w)).toNat) := by
  have hs := imgScale_nonneg h w
  have hqh : (0 : ℚ) ≤ (h : ℚ) * imgScale h w + 1/2 := by positivity
  have hqw : (0 : ℚ) ≤ (w : ℚ) * imgScale h w + 1/2 := by positivity
  refine ⟨rfl, pyInt_of_nonneg hqh, ?_⟩
  unfold preprocessShape
  rw [pyInt_of_nonneg hqh, pyInt_of_nonneg hqw, round_eq, round_eq]

/-- Witness for C2 at the concrete 800 x 600 shape: the truncated targets
equal the round-half-up values, concretely (1024, 768). -/
theorem preprocessShape_round_half_up_witness :
    preprocessShape 800 600 =
      ((round ((800 : ℚ) * imgScale 800 600)).toNat,
       (round ((600 : ℚ) * imgScale 800 600)).toNat) ∧
    preprocessShape 800 600 = (1024, 768) :=
  ⟨(preprocessShape_round_half_up 800 600 (by decide) (by decide)).2.2,
   by norm_num [preprocessShape, pyInt, imgScale]; decide⟩

/-! ### Projection lemmas for the pipeline operations -/

@[simp] lemma castF32_height (img : Img) : (castF32 img).height = img.height := rfl

@[simp] lemma castF32_width (img : Img) : (castF32 img).width = img.width := rfl

@[simp] lemma castF32_pix (img : Img) : (castF32 img).pix = img.pix := rfl

@[simp] lemma resizeBilinear_height (img : Img) (H W : ℕ) :
    (resizeBilinear img H W).height = H := rfl

@[simp] lemma resizeBilinear_width (img : Img) (H W : ℕ) :
    (resizeBilinear img H W).width = W := rfl

@[simp] lemma normalizeImg_height (img : Img) : (normalizeImg img).height = img.height := rfl

@[simp] lemma normalizeImg_width (img : Img) : (normalizeImg img).width = img.width := rfl

lemma normalizeImg_pix (img : Img) (i j : ℕ) (c : Fin 3) :
    (normalizeImg img).pix i j c = (img.pix i j c - pixelMean c) / pixelStd c := rfl

lemma denormalizeImg_pix (img : Img) (i j : ℕ) (c : Fin 3) :
    (denormalizeImg img).pix i j c = img.pix i j c * pixelStd c + pixelMean c := rfl

lemma padImage_pix (img : Img) (ph pw i j : ℕ) (c : Fin 3) :
    (padImage img ph pw).pix i j c =
      if i < img.height ∧ j < img.width then img.pix i j c else 0 := rfl

/-- `inference_resizing` with `pad = true`, unfolded into its pipeline. -/
lemma inference_resizing_true_def (img : Img) :
    inference_resizing img true =
      denormalizeImg (padImage
        (normalizeImg (resizeBilinear (castF32 img)
          (preprocessShape img.height img.width).1
          (preprocessShape img.height img.width).2))
        (1024 - (preprocessShape img.height img.width).1)
        (1024 - (preprocessShape img.height img.width).2)) := rfl

/-- `inference_resizing` with `pad = false`, unfolded. -/
lemma inference_resizing_false_def (img : Img) :
    inference_resizing img false =
      resizeBilinear (castF32 img)
        (preprocessShape img.height img.width).1
        (preprocessShape img.height img.width).2 := rfl

lemma pixelStd_ne_zero (c : Fin 3) : pixelStd c ≠ 0 := by
  fin_cases c <;> norm_num [pixelStd]

/-- C3: with `pad = true`, every pixel of the padded region (bottom rows and
right columns added to reach 1024 x 1024) equals the per-channel mean after
the normalize, zero-pad, denormalize sequence. -/
theorem inference_resizing_pad_region_mean (img : Img)
    (_hH : 0 < img.height) (_hW : 0 < img.width)
    (i j : ℕ) (c : Fin 3) (_hi : i < 1024) (_hj : j < 1024)
    (hpad : (preprocessShape img.height img.width).1 ≤ i ∨
      (preprocessShape img.height img.width).2 ≤ j) :
    (inference_resizing img true).pix i j c = pixelMean c := by
  have hcond : ¬ (i < (preprocessShape img.height img.width).1 ∧
      j < (preprocessShape img.height img.width).2) := by
    rcases hpad with h | h
    · exact fun hc => absurd hc.1 (not_lt.mpr h)
    · exact fun hc => absurd hc.2 (not_lt.mpr h)
  rw [inference_resizing_true_def, denormalizeImg_pix, padImage_pix]
  simp only [normalizeImg_height, normalizeImg_width, resizeBilinear_height,
    resizeBilinear_width]
  rw [if_neg hcond]
  ring

/-- A concrete 1 x 2 image: it resizes to 512 x 1024, so rows 512 and above
are padding. -/
def padTestImg : Img :=
  { height := 1, width := 2, pix := fun _ _ _ => 50, dtype := DType.u8 }

/-- Witness for C3: at the 1 x 2 test image, pixel (600, 0) lies in the
padded region and equals the channel-0 mean. -/
theorem inference_resizing_pad_region_mean_witness :
    (inference_resizing padTestImg true).pix 600 0 0 = pixelMean 0 :=
  inference_resizing_pad_region_mean padTestImg (by decide) (by decide)
    600 0 0 (by decide) (by decide)
    (Or.inl (by norm_num [preprocessShape, pyInt, imgScale, padTestImg]))

/-! ### Identity of the pipeline on an already-1024 x 1024 image -/

lemma srcCoord_self (n i : ℕ) (hn : 0 < n) : srcCoord n n i = (i : ℚ) := by
  have hn' : (n : ℚ) ≠ 0 := by
    exact_mod_cast hn.ne'
  unfold srcCoord
  field_simp
  ring

lemma clampIdx_natCast (n i : ℕ) (hi : i < n) : clampIdx n (i : ℤ) = i := by
  unfold clampIdx
  rw [Int.toNat_natCast]
  omega

/-- Resizing an image to its own size is the identity on in-bounds pixels. -/
lemma resizeBilinear_self (img : Img) (i j : ℕ) (c : Fin 3)
    (hi : i < img.height) (hj : j < img.width) :
    (resizeBilinear img img.height img.width).pix i j c = img.pix i j c := by
  have hh : 0 < img.height := Nat.lt_of_le_of_lt (Nat.zero_le i) hi
  have hw : 0 < img.width := Nat.lt_of_le_of_lt (Nat.zero_le j) hj
  show
    (let y := srcCoord img.height img.height i
     let x := srcCoord img.width img.width j
     let y0 := clampIdx img.height ⌊y⌋
     let y1 := clampIdx img.height (⌊y⌋ + 1)
     let x0 := clampIdx img.width ⌊x⌋
     let x1 := clampIdx img.width (⌊x⌋ + 1)
     let dy := y - (⌊y⌋ : ℚ)
     let dx := x - (⌊x⌋ : ℚ)
     (1 - dy) * (1 - dx) * img.pix y0 x0 c
       + (1 - dy) * dx * img.pix y0 x1 c
       + dy * (1 - dx) * img.pix y1 x0 c
       + dy * dx * img.pix y1 x1 c) = img.pix i j c
  simp only [srcCoord_self img.height i hh, srcCoord_self img.width j hw,
    Int.floor_natCast, clampIdx_natCast img.height i hi,
    clampIdx_natCast img.width j hj, Int.cast_natCast, sub_self]
  ring

/-- C6: on a 1024 x 1024 image, `inference_resizing` with `pad = true` is the
identity transform on pixel values: the target dimensions equal 1024 x 1024,
the pad amounts are zero, and the normalize-then-denormalize round trip
returns each pixel to its original value. -/
theorem inference_resizing_identity_1024 (img : Img)
    (hH : img.height = 1024) (hW : img.width = 1024) :
    preprocessShape img.height img.width = (1024, 1024) ∧
    1024 - (preprocessShape img.height img.width).1 = 0 ∧
    1024 - (preprocessShape img.height img.width).2 = 0 ∧
    (inference_resizing img true).height = 1024 ∧
    (inference_resizing img true).width = 1024 ∧
    ∀ i j : ℕ, ∀ c : Fin 3, i < 1024 → j < 1024 →
      (inference_resizing img true).pix i j c = img.pix i j c := by
  have hps : preprocessShape img.height img.width = (1024, 1024) := by
    rw [hH, hW]
    norm_num [preprocessShape, pyInt, imgScale]
    decide
  refine ⟨hps, by rw [hps]; rfl, by rw [hps]; rfl,
    inference_resizing_true_height img (by omega),
    inference_resizing_true_width img (by omega), ?_⟩
  intro i j c hi hj
  have hres : (resizeBilinear (castF32 img)
      (preprocessShape img.height img.width).1
      (preprocessShape img.height img.width).2).pix i j c = img.pix i j c := by
    have h1 : (preprocessShape img.height img.width).1 = (castF32 img).height := by
      rw [hps, castF32_height, hH]
    have h2 : (preprocessShape img.height img.width).2 = (castF32 img).width := by
      rw [hps, castF32_width, hW]
    rw [h1, h2]
    exact resizeBilinear_self (castF32 img) i j c
      (by simpa [castF32_height, hH] using hi)
      (by simpa [castF32_width, hW] using hj)
  rw [inference_resizing_true_def, denormalizeImg_pix, padImage_pix]
  simp only [normalizeImg_height, normalizeImg_width, resizeBilinear_height,
    resizeBilinear_width]
  rw [if_pos ⟨by rw [hps]; exact hi, by rw [hps]; exact hj⟩, normalizeImg_pix, hres,
    div_mul_cancel₀ _ (pixelStd_ne_zero c), sub_add_cancel]

/-- A concrete 1024 x 1024 image for the C6 witness. -/
def squareImg : Img :=
  { height := 1024, width := 1024, pix := fun i j _ => (i : ℚ) + (j : ℚ) / 7,
    dtype := DType.u8 }

/-- Witness for C6: on the concrete 1024 x 1024 image the pipeline keeps
pixel (3, 5) unchanged and produces a 1024 x 1024 output. -/
theorem inference_resizing_identity_1024_witness :
    (inference_resizing squareImg true).height = 1024 ∧
    (inference_resizing squareImg true).pix 3 5 0 = squareImg.pix 3 5 0 :=
  ⟨(inference_resizing_identity_1024 squareImg rfl rfl).2.2.2.1,
   (inference_resizing_identity_1024 squareImg rfl rfl).2.2.2.2.2 3 5 0
     (by decide) (by decide)⟩

/-! ### Mask thresholding (cell-17, cell-20) -/

/-- Cell-17: `mask = ops.convert_to_numpy(mask) > 0.0`, thresholding the
mask logits at 0.0 into a boolean mask. -/
def threshold_mask (m : ℕ → ℕ → ℚ) : ℕ → ℕ → Bool :=
  fun i j => decide (0 < m i j)

/-- Cell-20: `mask = 1 * (mask > 0.0)`, the boolean mask as 0/1 values. -/
def mask_to_float (b : ℕ → ℕ → Bool) : ℕ → ℕ → ℚ :=
  fun i j => if b i j then 1 else 0

/-- C7: thresholding at 0.0 is idempotent on an already-boolean mask: a mask
whose values are all 0 or 1 is reproduced exactly by the threshold step, and
thresholding again yields the same boolean mask. -/
theorem threshold_mask_idempotent (m : ℕ → ℕ → ℚ)
    (hb : ∀ i j, m i j = 0 ∨ m i j = 1) :
    mask_to_float (threshold_mask m) = m ∧
    threshold_mask (mask_to_float (threshold_mask m)) = threshold_mask m := by
  have h2 : mask_to_float (threshold_mask m) = m := by
    funext i j
    rcases hb i j with h | h <;> simp [mask_to_float, threshold_mask, h]
  exact ⟨h2, by rw [h2]⟩

/-- A concrete boolean-valued mask (the diagonal). -/
def boolTestMask : ℕ → ℕ → ℚ :=
  fun i j => if i = j then 1 else 0

/-- Witness for C7 at the concrete diagonal mask. -/
theorem threshold_mask_idempotent_witness :
    mask_to_float (threshold_mask boolTestMask) = boolTestMask ∧
    threshold_mask (mask_to_float (threshold_mask boolTestMask)) =
      threshold_mask boolTestMask :=
  threshold_mask_idempotent boolTestMask (by
    intro i j
    by_cases h : i = j <;> simp [boolTestMask, h])

/-! ### Dtype and purity of the pipeline -/

/-- C10: `inference_resizing` first casts to float32, so in both pad modes
the returned tensor is float32, never the input's integer dtype. -/
theorem inference_resizing_dtype (img : Img) (pad : Bool) :
    (inference_resizing img pad).dtype = DType.f32 := by
  cases pad <;> rfl

/-- A sequence of preprocessing calls, run one after the other. -/
def runPipeline (calls : List (Img × Bool)) : List Img :=
  calls.map (fun call => inference_resizing call.1 call.2)

/-- C9: `inference_resizing` is deterministic and stateless: equal inputs
give equal outputs, and in any sequence of calls each output is exactly the
output of its own call, unaffected by the calls that ran before it. -/
theorem inference_resizing_deterministic (img1 img2 : Img) (p1 p2 : Bool)
    (him : img1 = img2) (hp : p1 = p2) :
    inference_resizing img1 p1 = inference_resizing img2 p2 ∧
    ∀ (pre : List (Img × Bool)) (c : Img × Bool),
      runPipeline (pre ++ [c]) = runPipeline pre ++ [inference_resizing c.1 c.2] := by
  subst him
  subst hp
  refine ⟨rfl, ?_⟩
  intro pre c
  simp [runPipeline]

/-- Witness for C9 at the concrete test image. -/
theorem inference_resizing_deterministic_witness :
    inference_resizing testImg true = inference_resizing testImg true ∧
    runPipeline ([(padTestImg, false)] ++ [(testImg, true)]) =
      runPipeline [(padTestImg, false)] ++ [inference_resizing testImg true] :=
  ⟨(inference_resizing_deterministic testImg testImg true true rfl rfl).1,
   (inference_resizing_deterministic testImg testImg true true rfl rfl).2
     [(padTestImg, false)] (testImg, true)⟩

/-! ### Prompt request assembly (cell-13, cell-15, cell-23) -/

/-- Call path into the SAM model: `model.predict` (convenience path) versus
calling the model directly with fully-shaped placeholder tensors (raw). -/
inductive CallPath where
  | convenience : CallPath
  | raw : CallPath
deriving DecidableEq

/-- An (x, y) prompt coordinate. -/
abbrev Point := ℚ × ℚ

/-- A box prompt: top-left and bottom-right corner points. -/
abbrev Box := Point × Point

/-- One model invocation as the notebook assembles it: the call path used
and which entries of the request dictionary are present. -/
structure NotebookCall where
  path : CallPath
  points : Option (List Point)
  labels : Option (List ℤ)
  boxes : Option Box
  maskCount : Option ℕ

/-- Cell-15: the notebook's `model.predict` request for a point prompt with
no box prompt: the user points with one `(0, 0)` appended and the user
labels with one `-1` appended; the boxes and masks keys are omitted. -/
def assemble_point_request (pts : List Point) (lbls : List ℤ) : NotebookCall :=
  { path := CallPath.convenience
    points := some (pts ++ [(0, 0)])
    labels := some (lbls ++ [-1])
    boxes := none
    maskCount := none }

/-- Cell-23: the notebook's `model.predict` request for a box prompt: the
box is placed in the request unchanged (only axes are added by
`input_box[np.newaxis, np.newaxis, ...]`); points, labels and masks keys
are omitted. -/
def assemble_box_request (box : Box) : NotebookCall :=
  { path := CallPath.convenience
    points := none
    labels := none
    boxes := some box
    maskCount := none }

/-- Cell-13: `input_point = np.array([[284, 213.5]])`. -/
def input_point : List Point := [(284, 213.5)]

/-- Cell-13: `input_label = np.array([1])`. -/
def input_label : List ℤ := [1]

/-- Cell-23: `input_box = np.array([[240, 340], [400, 500]])`. -/
def input_box : Box := ((240, 340), (400, 500))

/-- Counterexample to C4: the notebook sends the box prompt to the model
unchanged; for the box `[[240, 340], [400, 500]]` the assembled request does
not contain the corners multiplied by the scale 1024/800 = 1.28 claimed for
an 800 x 600 source image (240 * 1.28 = 307.2 differs from the 240 that is
sent). -/
theorem box_prompt_not_rescaled_counterexample :
    (assemble_box_request input_box).boxes = some input_box ∧
    input_box ≠ ((240 * ((1024 : ℚ) / 800), 340 * ((1024 : ℚ) / 800)),
                 (400 * ((1024 : ℚ) / 800), 500 * ((1024 : ℚ) / 800))) := by
  refine ⟨rfl, ?_⟩
  norm_num [input_box, Prod.ext_iff]

/-- C4 amended: prompt coordinates are passed through to the request
unchanged; the notebook supplies points and boxes directly in the resized
(Canvas) coordinate frame and applies no rescaling during request assembly
(the point list only gets the `(0, 0)` placeholder appended when no box
prompt is present). -/
theorem prompts_passed_through_unchanged (box : Box) (pts : List Point)
    (lbls : List ℤ) :
    (assemble_box_request box).boxes = some box ∧
    (assemble_point_request pts lbls).points = some (pts ++ [(0, 0)]) ∧
    (assemble_point_request pts lbls).labels = some (lbls ++ [-1]) :=
  ⟨rfl, rfl, rfl⟩

/-- Counterexample to C8: cell-15 uses the convenience (`predict`) call path
and still appends the placeholder point `(0, 0)` with label `-1` to the
user's point and label lists, so on the convenience path the point list is
not the unpadded user list. -/
theorem predict_path_padding_counterexample :
    (assemble_point_request input_point input_label).path =
      CallPath.convenience ∧
    (assemble_point_request input_point input_label).points ≠
      some input_point ∧
    (assemble_point_request input_point input_label).points =
      some (input_point ++ [(0, 0)]) ∧
    (assemble_point_request input_point input_label).labels =
      some (input_label ++ [-1]) := by
  refine ⟨rfl, ?_, rfl, rfl⟩
  intro h
  simp [assemble_point_request, input_point] at h

/-- C8 amended: when no box prompt is present the notebook pads the point
and label lists with one placeholder point `(0, 0)` and label `-1` even on
the convenience (`predict`) path; the missing prompt categories (boxes,
masks) are omitted from the predict request entirely, while the raw call
path would require fully-shaped placeholder tensors instead. -/
theorem placeholder_padding_on_predict_path :
    (assemble_point_request input_point input_label).path =
      CallPath.convenience ∧
    (assemble_point_request input_point input_label).boxes = none ∧
    (assemble_point_request input_point input_label).maskCount = none ∧
    (assemble_point_request input_point input_label).points =
      some (input_point ++ [(0, 0)]) ∧
    (assemble_point_request input_point input_label).labels =
      some (input_label ++ [-1]) :=
  ⟨rfl, rfl, rfl, rfl, rfl⟩

/-! ### Request validation (spec section 4.1) -/

/-- A mask prompt: a low-resolution single-channel mask grid. -/
abbrev MaskPrompt := ℕ → ℕ → ℚ

/-- The validation errors of request assembly. -/
inductive RequestError where
  | tooManyBoxes : RequestError
  | tooManyMasks : RequestError
  | pointLabelMismatch : RequestError
deriving DecidableEq

/-- A fully assembled SAM request. -/
structure SAMRequest where
  points : List Point
  labels : List ℤ
  boxes : List Box
  masks : List MaskPrompt

/-- Modelled from the spec: the validation performed by `build_request`
(spec section 4.1) lives inside the external KerasHub SAM library, not in
this repository's source; the notebook only calls it (cells 15, 23, 25).
Following the spec's words: enforce at most one box prompt, at most one
mask prompt, and equal point/label list lengths, rejecting any violation as
a validation error before the request is assembled (hence before any
external model call); on the raw call path with no box prompt, one
placeholder point `(0, 0)` with label `-1` is appended. -/
def build_request (pts : List Point) (lbls : List ℤ) (boxes : List Box)
    (masks : List MaskPrompt) (path : CallPath) :
    Except RequestError SAMRequest :=
  if 1 < boxes.length then Except.error RequestError.tooManyBoxes
  else if 1 < masks.length then Except.error RequestError.tooManyMasks
  else if pts.length ≠ lbls.length then
    Except.error RequestError.pointLabelMismatch
  else if path = CallPath.raw ∧ boxes = [] then
    Except.ok { points := pts ++ [(0, 0)], labels := lbls ++ [-1],
                boxes := boxes, masks := masks }
  else
    Except.ok { points := pts, labels := lbls, boxes := boxes, masks := masks }

/-- C5: a request with more than one box prompt, more than one mask prompt,
or point and label lists of different lengths is rejected by request
assembly as a validation error: no request is ever assembled for it, so no
external model call can be made, and the error is returned synchronously to
the caller. -/
theorem build_request_rejects_invalid (pts : List Point) (lbls : List ℤ)
    (boxes : List Box) (masks : List MaskPrompt) (path : CallPath)
    (h : 1 < boxes.length ∨ 1 < masks.length ∨ pts.length ≠ lbls.length) :
    ∃ e, build_request pts lbls boxes masks path = Except.error e := by
  unfold build_request
  split_ifs with h1 h2 h3 h4
  · exact ⟨RequestError.tooManyBoxes, rfl⟩
  · exact ⟨RequestError.tooManyMasks, rfl⟩
  · exact ⟨RequestError.pointLabelMismatch, rfl⟩
  · tauto
  · tauto

/-- Witness for C5: a request with two box prompts is rejected. -/
theorem build_request_rejects_invalid_witness :
    ∃ e, build_request [] [] [input_box, input_box] [] CallPath.convenience =
      Except.error e :=
  build_request_rejects_invalid [] [] [input_box, input_box] []
    CallPath.convenience (Or.inl (by decide))
